import Mathlib

/-!
Verification of the core of `django_sockjs_server/lib/pika_client.py`
(class `PikaClient`): the dispatcher (`notify_listeners` / `handle_delivery`),
the subscriber registry (`add_subscriber_channel` / `remove_subscriber_channel`
/ `get_subscribe_channel_count`), the event listener set
(`add_event_listener` / `remove_event_listener`), the connection lifecycle
(`connect` / `reconnect` / `on_connected` / `on_channel_open` /
`on_queue_declared` / `on_closed`) and the accessors (`get_uptime`,
`get_last_reconnect`).

The embedding is shallow: JSON values are an inductive type, Python dicts
whose keys are strings are association lists with unique keys, exceptions
are `Except`, and the calls the class makes on its collaborators
(`redis.lrem`, `client.broadcast`, pika topology operations) are recorded
as effect values in the order the source emits them.  Logging is not
modelled.
-/

namespace PikaClientModel

/-- JSON values, as produced by `json.loads`.  An object is kept as the
list of its key/value pairs (a Python dict with string keys). -/
inductive JVal : Type
  | null : JVal
  | bool (b : Bool) : JVal
  | num (n : Int) : JVal
  | str (s : String) : JVal
  | arr (xs : List JVal) : JVal
  | obj (kvs : List (String × JVal)) : JVal

/-- Python exceptions that the dispatch path can raise:
`KeyError` from a dict subscript miss, `ValueError` from `json.loads`
on a malformed document, `TypeError` from subscripting a non-dict. -/
inductive PyErr : Type
  | keyError : PyErr
  | valueError : PyErr
  | typeError : PyErr
deriving DecidableEq

/-- A raw broker message body handed to `handle_delivery`: either a valid
JSON document or a malformed one (on which `json.loads` raises). -/
inductive RawPayload : Type
  | malformed : RawPayload
  | wf (j : JVal) : RawPayload

/-- `json.loads`: parsing a malformed body raises `ValueError`. -/
def loads : RawPayload → Except PyErr JVal
  | .malformed => .error .valueError
  | .wf j => .ok j

/-- First-match lookup in an association list with `String` keys
(Python dict lookup; the lists we build have unique keys). -/
def slookup {β : Type} : List (String × β) → String → Option β
  | [], _ => none
  | (k, v) :: rest, key => if k = key then some v else slookup rest key

/-- Python `d[key]` on a JSON value: `KeyError` when the key is missing,
`TypeError` when the value is not an object. -/
def getItem : JVal → String → Except PyErr JVal
  | .obj kvs, key =>
      match slookup kvs key with
      | some v => .ok v
      | none => .error .keyError
  | _, _ => .error .typeError

/-- Python dict assignment `d[k] = v` on an association list: replace the
value in place when the key is present, append otherwise. -/
def dictSet {β : Type} : List (String × β) → String → β → List (String × β)
  | [], k, v => [(k, v)]
  | (k₀, v₀) :: rest, k, v =>
      if k₀ = k then (k, v) :: rest else (k₀, v₀) :: dictSet rest k v

/-- Python `del d[k]` on an association list with unique keys: drop the
first (hence only) pair with that key. -/
def dictErase {β : Type} : List (String × β) → String → List (String × β)
  | [], _ => []
  | (k₀, v₀) :: rest, k =>
      if k₀ = k then rest else (k₀, v₀) :: dictErase rest k

/-- The value stored in `self.subscrib_channel[conn_id]`: the Python dict
`{'room': room, 'conn': client}`.  `C` is the (opaque) transport-handle
type. -/
structure Entry (C : Type) : Type where
  room : String
  conn : C

/-- `self.subscrib_channel`: a dict from connection id to its entry. -/
def Registry (C : Type) : Type := List (String × Entry C)

/-- `self.subscrib_channel[conn_id]` as a total lookup. -/
def lookupReg {C : Type} (reg : Registry C) (conn_id : String) : Option (Entry C) :=
  slookup reg conn_id

/-- `add_subscriber_channel(conn_id, room, client)`:
`self.subscrib_channel[conn_id] = {'room': room, 'conn': client}`. -/
def add_subscriber_channel {C : Type} (reg : Registry C)
    (conn_id room : String) (client : C) : Registry C :=
  dictSet reg conn_id ⟨room, client⟩

/-- `remove_subscriber_channel(conn_id, client)`: reads the entry (its
`room` feeds only a log line), deletes it, and swallows the `KeyError`
when the id is absent.  The `client` argument feeds only the log line. -/
def remove_subscriber_channel {C : Type} (reg : Registry C)
    (conn_id : String) (client : C) : Registry C :=
  match lookupReg reg conn_id with
  | some _ => dictErase reg conn_id
  | none => reg

/-- `get_subscribe_channel_count`: `len(self.subscrib_channel.keys())`. -/
def get_subscribe_channel_count {C : Type} (reg : Registry C) : Nat :=
  reg.length

/-- `get_subscribe_channels`: `self.subscrib_channel.keys()`. -/
def get_subscribe_channels {C : Type} (reg : Registry C) : List String :=
  reg.map Prod.fst

/-- The outbound calls `notify_listeners` makes on its collaborators, in
order: `self.redis.lrem(key, count, value)` (the serialized value kept as
its JSON value) and `client.broadcast(recipients, payload)`. -/
inductive Effect (C : Type) : Type
  | lrem (key : JVal) (count : Int) (val : JVal) : Effect C
  | broadcast (recipients : List C) (payload : JVal) : Effect C

/-- The try-block body `channel = self.subscrib_channel[event_obj['uid']]`:
`event_obj['uid']` may raise `KeyError` (missing key) or `TypeError`
(non-dict event), and the registry subscript raises `KeyError` on a miss
(a non-string uid is never a key of the registry, whose keys are the
string connection ids supplied by the transport layer). -/
def tryLookup {C : Type} (reg : Registry C) (ev : JVal) : Except PyErr (Entry C) :=
  match getItem ev "uid" with
  | .error e => .error e
  | .ok u =>
      match u with
      | .str s =>
          match lookupReg reg s with
          | some entry => .ok entry
          | none => .error .keyError
      | _ => .error .keyError

/-- `notify_listeners(event_json)`: decode the body; on a registry hit
broadcast `{'data': event_obj['data']}` to the singleton recipient list
`[client]`; on a `KeyError` (miss) call
`redis.lrem(event_obj['room'], 0, json.dumps({'id': event_obj['uid'],
'host': event_obj['host']}))`, evaluating `room`, `uid`, `host` in that
(Python left-to-right) order.  Any other exception propagates: there is
no handler around `json.loads` or the field reads. -/
def notify_listeners {C : Type} (reg : Registry C) (event_json : RawPayload) :
    Except PyErr (List (Effect C)) :=
  match loads event_json with
  | .error e => .error e
  | .ok ev =>
      match tryLookup reg ev with
      | .error .keyError =>
          match getItem ev "room" with
          | .error e => .error e
          | .ok room =>
              match getItem ev "uid" with
              | .error e => .error e
              | .ok uid =>
                  match getItem ev "host" with
                  | .error e => .error e
                  | .ok host =>
                      .ok [Effect.lrem room 0 (JVal.obj [("id", uid), ("host", host)])]
      | .error e => .error e
      | .ok entry =>
          match getItem ev "data" with
          | .error e => .error e
          | .ok d =>
              .ok [Effect.broadcast [entry.conn] (JVal.obj [("data", d)])]

/-- `handle_delivery(channel, method, header, body)` merely forwards the
body to `notify_listeners`. -/
def handle_delivery {C : Type} (reg : Registry C) (body : RawPayload) :
    Except PyErr (List (Effect C)) :=
  notify_listeners reg body

/-- A well-formed inbound event
`{"uid": uid, "room": room, "host": host, "data": data}`. -/
def inboundEvent (uid : String) (room host data : JVal) : JVal :=
  JVal.obj [("uid", JVal.str uid), ("room", room), ("host", host), ("data", data)]

/-- The listener bookkeeping: `self.event_listeners_count` (an `Int`,
since the source can drive it below zero) and `self.event_listeners`
(a Python set, kept as a duplicate-free list).  `L` is the opaque
listener-handle type. -/
structure ListenerState (L : Type) : Type where
  event_listeners_count : Int
  event_listeners : List L

/-- `add_event_listener(listener)`: increments the count unconditionally,
then `set.add` (a no-op on a handle already present). -/
def add_event_listener {L : Type} [DecidableEq L]
    (s : ListenerState L) (listener : L) : ListenerState L :=
  { event_listeners_count := s.event_listeners_count + 1
    event_listeners :=
      if listener ∈ s.event_listeners then s.event_listeners
      else listener :: s.event_listeners }

/-- `remove_event_listener(listener)`: the decrement happens before
`set.remove`, and the `KeyError` raised on an absent handle is caught
only afterwards — so the count is decremented in both cases. -/
def remove_event_listener {L : Type} [DecidableEq L]
    (s : ListenerState L) (listener : L) : ListenerState L :=
  { event_listeners_count := s.event_listeners_count - 1
    event_listeners := s.event_listeners.erase listener }

/-- `get_event_listeners_count`. -/
def get_event_listeners_count {L : Type} (s : ListenerState L) : Int :=
  s.event_listeners_count

/-- `get_uptime`: `(now() - self.uptime_start).seconds`, with times in
whole seconds.  For a non-negative `timedelta`, Python normalises so
that `.seconds` is the sub-day remainder of the elapsed time — the
seconds field, not the total. -/
def get_uptime (uptime_start t_now : Nat) : Nat :=
  (t_now - uptime_start) % 86400

/-- The connection-lifecycle fields of the client that the connect path
touches, plus the queue name recorded by `on_queue_declared`. -/
structure ConnState : Type where
  connected : Bool
  connecting : Bool
  last_reconnect : Nat
  queue : Option String

/-- The broker/topology configuration read from settings. -/
structure Config : Type where
  rabbitmq_exchange_name : String
  rabbitmq_exchange_type : String
  rabbitmq_queue_name : String

/-- The calls the connection lifecycle makes on pika, in source order. -/
inductive ConnEffect : Type
  | connAttempt : ConnEffect
  | addCloseCallback : ConnEffect
  | sleep (sec : Nat) : ConnEffect
  | openChannel : ConnEffect
  | exchangeDeclare (exchange exchangeType : String) : ConnEffect
  | queueDeclare (queue : String) : ConnEffect
  | queueBind (exchange queue : String) : ConnEffect
  | basicConsume (queue : String) : ConnEffect
  | addTimeout (sec : Nat) : ConnEffect

/-- `connect()`.  If `self.connecting` is set, log and return at once.
Otherwise set the flag and construct a `TornadoConnection`; the outcome
of each successive construction is supplied by the oracle `outcomes`
(`true`: the constructor returns and the close callback is registered;
`false`: it raises `AMQPConnectionError`, the code sleeps five seconds
and calls `reconnect()`, which clears the flag and re-enters `connect`).
Every frame finishes with `self.last_reconnect = now()`; `t` stands for
`now()`.  An exhausted oracle is read as a succeeding construction. -/
def connect (t : Nat) : List Bool → ConnState → ConnState × List ConnEffect
  | outcomes, st =>
    if st.connecting then (st, [])
    else
      match outcomes with
      | [] =>
          ({ st with connecting := true, last_reconnect := t },
           [ConnEffect.connAttempt, ConnEffect.addCloseCallback])
      | ok :: rest =>
          if ok then
            ({ st with connecting := true, last_reconnect := t },
             [ConnEffect.connAttempt, ConnEffect.addCloseCallback])
          else
            let st₁ : ConnState := { st with connecting := false }
            let r := connect t rest st₁
            ({ r.1 with last_reconnect := t },
             ConnEffect.connAttempt :: ConnEffect.sleep 5 :: r.2)

/-- `reconnect()`: `self.connecting = False`, then `self.connect()`. -/
def reconnect (t : Nat) (outcomes : List Bool) (st : ConnState) :
    ConnState × List ConnEffect :=
  connect t outcomes { st with connecting := false }

/-- `on_connected(connection)`: record the connection and open a channel
with `on_channel_open` as its callback. -/
def on_connected (st : ConnState) : ConnState × List ConnEffect :=
  ({ st with connected := true }, [ConnEffect.openChannel])

/-- `on_channel_open(channel)`: declare the configured exchange, then
declare the queue with `on_queue_declared` as its callback. -/
def on_channel_open (cfg : Config) (st : ConnState) : ConnState × List ConnEffect :=
  (st,
   [ConnEffect.exchangeDeclare cfg.rabbitmq_exchange_name cfg.rabbitmq_exchange_type,
    ConnEffect.queueDeclare cfg.rabbitmq_queue_name])

/-- `on_queue_declared(frame)`: record `frame.method.queue`, bind the
queue to the exchange, then start consuming with `handle_delivery`. -/
def on_queue_declared (cfg : Config) (frameQueue : String) (st : ConnState) :
    ConnState × List ConnEffect :=
  ({ st with queue := some frameQueue },
   [ConnEffect.queueBind cfg.rabbitmq_exchange_name frameQueue,
    ConnEffect.basicConsume frameQueue])

/-- `on_closed(connection, ...)`: schedule `reconnect` five seconds out. -/
def on_closed (st : ConnState) : ConnState × List ConnEffect :=
  (st, [ConnEffect.addTimeout 5])

/-- `get_last_reconnect`. -/
def get_last_reconnect (st : ConnState) : Nat :=
  st.last_reconnect

/-- The effects of one successful connection, in the order the source's
callback wiring runs them: `on_connected` (fired when the connection
opens) opens the channel, `on_channel_open` declares the topology, and
`on_queue_declared` binds the queue and starts the consumer. -/
def connectionSuccessEffects (cfg : Config) (frameQueue : String) (st : ConnState) :
    List ConnEffect :=
  let r₁ := on_connected st
  let r₂ := on_channel_open cfg r₁.1
  let r₃ := on_queue_declared cfg frameQueue r₂.1
  r₁.2 ++ r₂.2 ++ r₃.2

/-- A registry operation issued by the transport layer:
`add_subscriber_channel(conn_id, room, client)` or
`remove_subscriber_channel(conn_id, client)`. -/
inductive RegOp (C : Type) : Type
  | add (conn_id room : String) (client : C) : RegOp C
  | remove (conn_id : String) (client : C) : RegOp C

/-- Run one registry operation. -/
def applyOp {C : Type} (reg : Registry C) : RegOp C → Registry C
  | .add conn_id room client => add_subscriber_channel reg conn_id room client
  | .remove conn_id client => remove_subscriber_channel reg conn_id client

/-- Run a sequence of registry operations from the empty registry
(`self.subscrib_channel = dict()`). -/
def applyOps {C : Type} (ops : List (RegOp C)) : Registry C :=
  ops.foldl applyOp ([] : Registry C)

/-- Specification-level bookkeeping: the set of connection ids currently
added and not subsequently removed. -/
def liveStep {C : Type} (s : Finset String) : RegOp C → Finset String
  | .add conn_id _ _ => insert conn_id s
  | .remove conn_id _ => s.erase conn_id

/-- The distinct connection ids live after a sequence of operations. -/
def liveIds {C : Type} (ops : List (RegOp C)) : Finset String :=
  ops.foldl liveStep ∅

/-! ### Helper lemmas -/

theorem slookup_eq_none_iff {β : Type} (l : List (String × β)) (k : String) :
    slookup l k = none ↔ k ∉ l.map Prod.fst := by
  induction l with
  | nil => simp [slookup]
  | cons p rest ih =>
      obtain ⟨k₀, v₀⟩ := p
      by_cases hk : k₀ = k
      · subst hk
        simp [slookup]
      · simp only [slookup, if_neg hk, ih, List.map_cons, List.mem_cons]
        constructor
        · intro h hmem
          rcases hmem with hmem | hmem
          · exact hk hmem.symm
          · exact h hmem
        · intro h hmem
          exact h (Or.inr hmem)

theorem slookup_eq_none_of_not_mem {β : Type} (l : List (String × β)) (k : String)
    (h : k ∉ l.map Prod.fst) : slookup l k = none :=
  (slookup_eq_none_iff l k).mpr h

theorem slookup_dictErase_self {β : Type} (l : List (String × β)) (k : String)
    (h : (l.map Prod.fst).Nodup) : slookup (dictErase l k) k = none := by
  induction l with
  | nil => rfl
  | cons p rest ih =>
      obtain ⟨k₀, v₀⟩ := p
      simp only [List.map_cons, List.nodup_cons] at h
      by_cases hk : k₀ = k
      · simp only [dictErase, if_pos hk]
        exact slookup_eq_none_of_not_mem rest k (hk ▸ h.1)
      · simp only [dictErase, if_neg hk, slookup, if_neg hk]
        exact ih h.2

theorem mem_keys_dictSet {β : Type} (l : List (String × β)) (k key : String) (v : β) :
    key ∈ (dictSet l k v).map Prod.fst ↔ key = k ∨ key ∈ l.map Prod.fst := by
  induction l with
  | nil => simp [dictSet]
  | cons p rest ih =>
      obtain ⟨k₀, v₀⟩ := p
      by_cases hk : k₀ = k
      · subst hk
        simp [dictSet]
      · simp only [dictSet, if_neg hk, List.map_cons, List.mem_cons, ih]
        tauto

theorem nodup_keys_dictSet {β : Type} (l : List (String × β)) (k : String) (v : β)
    (h : (l.map Prod.fst).Nodup) : ((dictSet l k v).map Prod.fst).Nodup := by
  induction l with
  | nil => simp [dictSet]
  | cons p rest ih =>
      obtain ⟨k₀, v₀⟩ := p
      simp only [List.map_cons, List.nodup_cons] at h
      by_cases hk : k₀ = k
      · subst hk
        simpa [dictSet] using h
      · simp only [dictSet, if_neg hk, List.map_cons, List.nodup_cons]
        refine ⟨?_, ih h.2⟩
        rw [mem_keys_dictSet]
        rintro (rfl | hmem)
        · exact hk rfl
        · exact h.1 hmem

theorem toFinset_keys_dictSet {β : Type} (l : List (String × β)) (k : String) (v : β) :
    ((dictSet l k v).map Prod.fst).toFinset = insert k (l.map Prod.fst).toFinset := by
  induction l with
  | nil => simp [dictSet]
  | cons p rest ih =>
      obtain ⟨k₀, v₀⟩ := p
      by_cases hk : k₀ = k
      · subst hk
        simp [dictSet]
      · simp only [dictSet, if_neg hk, List.map_cons, List.toFinset_cons, ih]
        exact Finset.Insert.comm k₀ k _

theorem mem_keys_dictErase {β : Type} (l : List (String × β)) (k key : String)
    (h : key ∈ (dictErase l k).map Prod.fst) : key ∈ l.map Prod.fst := by
  induction l with
  | nil => exact h
  | cons p rest ih =>
      obtain ⟨k₀, v₀⟩ := p
      by_cases hk : k₀ = k
      · simp only [dictErase, if_pos hk] at h
        simp [h]
      · simp only [dictErase, if_neg hk, List.map_cons, List.mem_cons] at h ⊢
        rcases h with h | h
        · exact Or.inl h
        · exact Or.inr (ih h)

theorem nodup_keys_dictErase {β : Type} (l : List (String × β)) (k : String)
    (h : (l.map Prod.fst).Nodup) : ((dictErase l k).map Prod.fst).Nodup := by
  induction l with
  | nil => simp [dictErase]
  | cons p rest ih =>
      obtain ⟨k₀, v₀⟩ := p
      simp only [List.map_cons, List.nodup_cons] at h
      by_cases hk : k₀ = k
      · simpa [dictErase, if_pos hk] using h.2
      · simp only [dictErase, if_neg hk, List.map_cons, List.nodup_cons]
        exact ⟨fun hmem => h.1 (mem_keys_dictErase rest k k₀ hmem), ih h.2⟩

theorem toFinset_keys_dictErase {β : Type} (l : List (String × β)) (k : String)
    (h : (l.map Prod.fst).Nodup) :
    ((dictErase l k).map Prod.fst).toFinset = ((l.map Prod.fst).toFinset).erase k := by
  induction l with
  | nil => simp [dictErase]
  | cons p rest ih =>
      obtain ⟨k₀, v₀⟩ := p
      simp only [List.map_cons, List.nodup_cons] at h
      by_cases hk : k₀ = k
      · subst hk
        have hd : dictErase ((k₀, v₀) :: rest) k₀ = rest := by simp [dictErase]
        rw [hd, List.map_cons, List.toFinset_cons,
          Finset.erase_insert (by rw [List.mem_toFinset]; exact h.1)]
      · simp only [dictErase, if_neg hk, List.map_cons, List.toFinset_cons, ih h.2]
        exact (Finset.erase_insert_of_ne hk).symm

theorem foldl_applyOp_inv {C : Type} (ops : List (RegOp C)) :
    ∀ (reg : Registry C), (reg.map Prod.fst).Nodup →
      ((ops.foldl applyOp reg).map Prod.fst).Nodup ∧
        ((ops.foldl applyOp reg).map Prod.fst).toFinset =
          ops.foldl liveStep (reg.map Prod.fst).toFinset := by
  induction ops with
  | nil => exact fun reg h => ⟨h, rfl⟩
  | cons op rest ih =>
      intro reg h
      have hstep : ((applyOp reg op).map Prod.fst).Nodup ∧
          ((applyOp reg op).map Prod.fst).toFinset =
            liveStep (reg.map Prod.fst).toFinset op := by
        cases op with
        | add conn_id room client =>
            exact ⟨nodup_keys_dictSet reg conn_id ⟨room, client⟩ h,
              toFinset_keys_dictSet reg conn_id ⟨room, client⟩⟩
        | remove conn_id client =>
            simp only [applyOp, remove_subscriber_channel, liveStep]
            match hl : lookupReg reg conn_id with
            | some e =>
                exact ⟨nodup_keys_dictErase reg conn_id h,
                  toFinset_keys_dictErase reg conn_id h⟩
            | none =>
                refine ⟨h, ?_⟩
                rw [Finset.erase_eq_of_not_mem]
                rw [List.mem_toFinset]
                exact (slookup_eq_none_iff reg conn_id).mp hl
      have := ih (applyOp reg op) hstep.1
      simp only [List.foldl_cons]
      exact ⟨this.1, by rw [this.2, hstep.2]⟩

theorem notify_wf_hit {C : Type} (reg : Registry C) (uid : String)
    (room host data : JVal) (e : Entry C) (h : lookupReg reg uid = some e) :
    notify_listeners reg (.wf (inboundEvent uid room host data)) =
      .ok [Effect.broadcast [e.conn] (JVal.obj [("data", data)])] := by
  simp [notify_listeners, loads, tryLookup, inboundEvent, getItem, slookup, h]

theorem notify_wf_miss {C : Type} (reg : Registry C) (uid : String)
    (room host data : JVal) (h : lookupReg reg uid = none) :
    notify_listeners reg (.wf (inboundEvent uid room host data)) =
      .ok [Effect.lrem room 0 (JVal.obj [("id", JVal.str uid), ("host", host)])] := by
  simp [notify_listeners, loads, tryLookup, inboundEvent, getItem, slookup, h]

/-! ### Claims -/

/-- C1: on an inbound event `{uid, room, host, data}` whose `uid` has a
registry entry, `notify_listeners` delivers exactly the JSON object
`{"data": data}` (host and room stripped) via the stored handle's
`broadcast`, with the singleton recipient list `[client]`, and performs
no `redis.lrem` call. -/
theorem hit_delivers_data_only {C : Type} (reg : Registry C) (uid : String)
    (room host data : JVal) (e : Entry C) (h : lookupReg reg uid = some e) :
    notify_listeners reg (.wf (inboundEvent uid room host data)) =
      .ok [Effect.broadcast [e.conn] (JVal.obj [("data", data)])] :=
  notify_wf_hit reg uid room host data e h

/-- Witness for C1 at the spec's concrete example: event
`{"uid":"c1","room":"r1","host":"h1","data":{"x":1}}` with registry
`c1 -> {room:"r1", handle:7}`. -/
theorem hit_delivers_data_only_witness :
    lookupReg [("c1", Entry.mk "r1" (7 : Nat))] "c1" = some (Entry.mk "r1" 7) ∧
    notify_listeners [("c1", Entry.mk "r1" (7 : Nat))]
        (.wf (inboundEvent "c1" (JVal.str "r1") (JVal.str "h1")
          (JVal.obj [("x", JVal.num 1)]))) =
      .ok [Effect.broadcast [7]
            (JVal.obj [("data", JVal.obj [("x", JVal.num 1)])])] :=
  ⟨rfl, hit_delivers_data_only [("c1", Entry.mk "r1" (7 : Nat))] "c1"
    (JVal.str "r1") (JVal.str "h1") (JVal.obj [("x", JVal.num 1)])
    (Entry.mk "r1" 7) rfl⟩

/-- C2: on an inbound event whose `uid` has no registry entry,
`notify_listeners` performs exactly one membership-store removal call,
`redis.lrem(room, 0, json.dumps({'id': uid, 'host': host}))`, and
delivers nothing to any transport handle. -/
theorem miss_triggers_lrem {C : Type} (reg : Registry C) (uid : String)
    (room host data : JVal) (h : lookupReg reg uid = none) :
    notify_listeners reg (.wf (inboundEvent uid room host data)) =
      .ok [Effect.lrem room 0 (JVal.obj [("id", JVal.str uid), ("host", host)])] :=
  notify_wf_miss reg uid room host data h

/-- Witness for C2 at the spec's concrete example: the same event against
an empty registry yields exactly `lrem("r1", 0, {"id":"c1","host":"h1"})`. -/
theorem miss_triggers_lrem_witness :
    lookupReg ([] : Registry Nat) "c1" = none ∧
    notify_listeners ([] : Registry Nat)
        (.wf (inboundEvent "c1" (JVal.str "r1") (JVal.str "h1")
          (JVal.obj [("x", JVal.num 1)]))) =
      .ok [Effect.lrem (JVal.str "r1") 0
            (JVal.obj [("id", JVal.str "c1"), ("host", JVal.str "h1")])] :=
  ⟨rfl, miss_triggers_lrem ([] : Registry Nat) "c1" (JVal.str "r1")
    (JVal.str "h1") (JVal.obj [("x", JVal.num 1)]) rfl⟩

/-- C6 counterexample: at the concrete malformed payload, dispatch
(`handle_delivery`) raises the `ValueError` from `json.loads` instead of
dropping the message — refuting the claim that every ill-formed payload
is dropped without raising. -/
theorem malformed_payload_counterexample :
    handle_delivery ([] : Registry Nat) RawPayload.malformed =
      .error PyErr.valueError :=
  rfl

/-- C6 (amended): dispatch never mutates registry or listener state, and
a registry miss's `KeyError` is caught; but a malformed payload raises
`ValueError` out of `notify_listeners`, and an event missing the fields
read on the taken path (here: an empty object, whose missing `uid` sends
it to the miss path and whose missing `room` then raises) raises
`KeyError`. -/
theorem malformed_payload_raises {C : Type} (reg : Registry C) :
    notify_listeners reg RawPayload.malformed = .error PyErr.valueError ∧
    notify_listeners reg (.wf (JVal.obj [])) = .error PyErr.keyError :=
  ⟨rfl, rfl⟩

/-- C9: removal from the registry is keyed solely by the connection id —
the `client` argument of `remove_subscriber_channel` (used only in a log
line) never affects the resulting registry, and on any registry whose
keys are unique (as every dict-built registry is) the entry for
`conn_id` is gone afterwards. -/
theorem remove_ignores_client {C : Type} (reg : Registry C) (conn_id : String)
    (c₁ c₂ : C) (h : (reg.map Prod.fst).Nodup) :
    remove_subscriber_channel reg conn_id c₁ =
      remove_subscriber_channel reg conn_id c₂ ∧
    lookupReg (remove_subscriber_channel reg conn_id c₁) conn_id = none := by
  refine ⟨rfl, ?_⟩
  unfold remove_subscriber_channel
  match hl : lookupReg reg conn_id with
  | some e => exact slookup_dictErase_self reg conn_id h
  | none => exact hl

/-- Witness for C9: removing `"c1"` with two different client arguments
gives the same registry, and the entry is gone. -/
theorem remove_ignores_client_witness :
    ([("c1", Entry.mk "r1" (7 : Nat))].map Prod.fst).Nodup ∧
    (remove_subscriber_channel [("c1", Entry.mk "r1" (7 : Nat))] "c1" 8 =
      remove_subscriber_channel [("c1", Entry.mk "r1" (7 : Nat))] "c1" 9 ∧
    lookupReg (remove_subscriber_channel [("c1", Entry.mk "r1" (7 : Nat))] "c1" 8)
      "c1" = none) :=
  ⟨by simp, remove_ignores_client [("c1", Entry.mk "r1" (7 : Nat))] "c1" 8 9
    (by simp)⟩

/-- C10: on a registry hit, delivery does not depend on the room fields —
the message is delivered to the stored handle whatever the event's room
is (in particular when it differs from the stored room, which the
dispatch path never reads), and changing the event's room changes
nothing in the dispatch outcome. -/
theorem hit_room_irrelevant {C : Type} (reg : Registry C) (uid : String)
    (room₁ room₂ host data : JVal) (e : Entry C)
    (h : lookupReg reg uid = some e) :
    notify_listeners reg (.wf (inboundEvent uid room₁ host data)) =
      .ok [Effect.broadcast [e.conn] (JVal.obj [("data", data)])] ∧
    notify_listeners reg (.wf (inboundEvent uid room₁ host data)) =
      notify_listeners reg (.wf (inboundEvent uid room₂ host data)) := by
  refine ⟨notify_wf_hit reg uid room₁ host data e h, ?_⟩
  rw [notify_wf_hit reg uid room₁ host data e h,
    notify_wf_hit reg uid room₂ host data e h]

/-- Witness for C10: the stored room is `"r1"` but the event carries room
`"r2"` (and `"r3"`): delivery still happens, identically. -/
theorem hit_room_irrelevant_witness :
    lookupReg [("c1", Entry.mk "r1" (7 : Nat))] "c1" = some (Entry.mk "r1" 7) ∧
    (notify_listeners [("c1", Entry.mk "r1" (7 : Nat))]
        (.wf (inboundEvent "c1" (JVal.str "r2") (JVal.str "h1") (JVal.num 3))) =
      .ok [Effect.broadcast [7] (JVal.obj [("data", JVal.num 3)])] ∧
    notify_listeners [("c1", Entry.mk "r1" (7 : Nat))]
        (.wf (inboundEvent "c1" (JVal.str "r2") (JVal.str "h1") (JVal.num 3))) =
      notify_listeners [("c1", Entry.mk "r1" (7 : Nat))]
        (.wf (inboundEvent "c1" (JVal.str "r3") (JVal.str "h1") (JVal.num 3)))) :=
  ⟨rfl, hit_room_irrelevant [("c1", Entry.mk "r1" (7 : Nat))] "c1"
    (JVal.str "r2") (JVal.str "r3") (JVal.str "h1") (JVal.num 3)
    (Entry.mk "r1" 7) rfl⟩

/-- C3: `connect()` is a no-op whenever the `connecting` guard flag is
set (which it is from the moment a connection attempt starts, through
all later states, until `reconnect` clears it): no second connection
attempt is opened and the state is unchanged. -/
theorem connect_noop_when_connecting (t : Nat) (outcomes : List Bool)
    (st : ConnState) (h : st.connecting = true) :
    connect t outcomes st = (st, []) := by
  unfold connect
  simp [h]

/-- Witness for C3: a state with the guard set, against an oracle that
would let a fresh attempt succeed. -/
theorem connect_noop_when_connecting_witness :
    (ConnState.mk false true 0 none).connecting = true ∧
    connect 3 [true] (ConnState.mk false true 0 none) =
      (ConnState.mk false true 0 none, []) :=
  ⟨rfl, connect_noop_when_connecting 3 [true] (ConnState.mk false true 0 none) rfl⟩

/-- C5 (refutation of the spec's listener-count invariant, a code bug):
adding the same listener twice drives the cached count to 2 while the
set has one element, and removing an absent listener decrements the
count (to −1 from a fresh state) while leaving the set unchanged — the
decrement precedes the `KeyError` that the source then swallows. -/
theorem listener_count_desync :
    (add_event_listener (add_event_listener (ListenerState.mk 0 []) (5 : Nat))
        5).event_listeners_count = 2 ∧
    (add_event_listener (add_event_listener (ListenerState.mk 0 []) (5 : Nat))
        5).event_listeners.length = 1 ∧
    (remove_event_listener (ListenerState.mk 0 ([] : List Nat))
        5).event_listeners_count = -1 ∧
    (remove_event_listener (ListenerState.mk 0 ([] : List Nat))
        5).event_listeners = [] := by
  decide

/-- C7 (refutation of uptime monotonicity, a code bug): `get_uptime`
returns the `.seconds` field of the timedelta, which wraps every 86400
seconds — one second after returning 86399 it returns 0. -/
theorem get_uptime_wraps :
    get_uptime 0 86399 = 86399 ∧ get_uptime 0 86400 = 0 ∧
    ¬ get_uptime 0 86399 ≤ get_uptime 0 86400 := by
  decide

/-- C8: every successful (re)connection — from any prior state, so after
a close and reconnect just as on the first connect — runs the full
topology setup in source callback order: channel open (only after the
connection opened), exchange declare, queue declare, queue bind, and
only then `basic_consume`; a close schedules the delayed reconnect, and
`reconnect` (its guard cleared) opens a fresh connection attempt. -/
theorem topology_on_every_connection (cfg : Config) (frameQueue : String)
    (st : ConnState) (t : Nat) :
    connectionSuccessEffects cfg frameQueue st =
      [ConnEffect.openChannel,
       ConnEffect.exchangeDeclare cfg.rabbitmq_exchange_name
         cfg.rabbitmq_exchange_type,
       ConnEffect.queueDeclare cfg.rabbitmq_queue_name,
       ConnEffect.queueBind cfg.rabbitmq_exchange_name frameQueue,
       ConnEffect.basicConsume frameQueue] ∧
    (on_closed st).2 = [ConnEffect.addTimeout 5] ∧
    (reconnect t [true] st).2 =
      [ConnEffect.connAttempt, ConnEffect.addCloseCallback] := by
  refine ⟨rfl, rfl, ?_⟩
  simp [reconnect, connect]

/-- C4: for every sequence of `add_subscriber_channel` /
`remove_subscriber_channel` operations from the empty registry,
`get_subscribe_channel_count` equals the number of distinct connection
ids currently added and not subsequently removed, lookup of an id that
is not live (in particular a removed one) returns `none`, and removing
an absent id is a no-op, never an error. -/
theorem registry_count_invariant {C : Type} (ops : List (RegOp C)) :
    get_subscribe_channel_count (applyOps ops) = (liveIds ops).card ∧
    (∀ conn_id : String, conn_id ∉ liveIds ops →
      lookupReg (applyOps ops) conn_id = none) ∧
    (∀ (conn_id : String) (client : C),
      lookupReg (applyOps ops) conn_id = none →
      remove_subscriber_channel (applyOps ops) conn_id client = applyOps ops) := by
  obtain ⟨hnd, hts⟩ := foldl_applyOp_inv ops ([] : Registry C) (by simp)
  have hset : ((applyOps ops).map Prod.fst).toFinset = liveIds ops := by
    rw [applyOps, hts, liveIds]
    simp
  refine ⟨?_, ?_, ?_⟩
  · rw [get_subscribe_channel_count, ← List.length_map (applyOps ops) Prod.fst,
      ← List.toFinset_card_of_nodup
        (show ((applyOps ops).map Prod.fst).Nodup from hnd), hset]
  · intro conn_id hid
    rw [lookupReg, slookup_eq_none_iff]
    intro hmem
    exact hid (hset ▸ List.mem_toFinset.mpr hmem)
  · intro conn_id client h
    simp [remove_subscriber_channel, h]

/-- Witness for C4 at the sequence add `"c1"` then remove `"c1"`: the
count matches the (empty) live set, lookup of the removed id misses,
and removing it again is a no-op. -/
theorem registry_count_invariant_witness :
    get_subscribe_channel_count
        (applyOps [RegOp.add "c1" "r1" (0 : Nat), RegOp.remove "c1" 0]) =
      (liveIds [RegOp.add "c1" "r1" (0 : Nat), RegOp.remove "c1" 0]).card ∧
    ("c1" ∉ liveIds [RegOp.add "c1" "r1" (0 : Nat), RegOp.remove "c1" 0] ∧
      lookupReg (applyOps [RegOp.add "c1" "r1" (0 : Nat), RegOp.remove "c1" 0])
        "c1" = none) ∧
    (lookupReg (applyOps [RegOp.add "c1" "r1" (0 : Nat), RegOp.remove "c1" 0])
        "c1" = none ∧
      remove_subscriber_channel
          (applyOps [RegOp.add "c1" "r1" (0 : Nat), RegOp.remove "c1" 0]) "c1" 0 =
        applyOps [RegOp.add "c1" "r1" (0 : Nat), RegOp.remove "c1" 0]) :=
  ⟨(registry_count_invariant [RegOp.add "c1" "r1" (0 : Nat), RegOp.remove "c1" 0]).1,
   ⟨by decide,
    (registry_count_invariant [RegOp.add "c1" "r1" (0 : Nat),
      RegOp.remove "c1" 0]).2.1 "c1" (by decide)⟩,
   ⟨rfl,
    (registry_count_invariant [RegOp.add "c1" "r1" (0 : Nat),
      RegOp.remove "c1" 0]).2.2 "c1" 0 rfl⟩⟩

end PikaClientModel
